import Mathlib

/-!
Shallow embedding of the inventory-tracking application's report
aggregator (component ReportsSection: generateReports and the eight view
generators) and of the entry form's record computation (InventoryForm:
calculateValues / handleSaveRecord).

Modelling conventions, chosen to mirror the TypeScript source:
* Calendar dates (ISO `YYYY-MM-DD` strings in the source) are encoded as
  day indices (`Nat`, days since the epoch); `new Date(d).getTime()`
  is then `d * 86400000` milliseconds, and both string-key grouping and
  `getTime()` comparison of dates coincide with `Nat` equality/order.
* The current instant `new Date().getTime()` is an explicit `today : Int`
  parameter (milliseconds).
* Quantities are `Nat` (the spec declares them non-negative integers);
  differences that may go negative are computed in `Int`; JS `number`
  division producing fractional results is modelled in `ℚ`.
* JS `Array.prototype.sort` is a stable sort by a total preorder given by
  the comparator; `List.insertionSort` with the relation
  `a ≼ b ↔ compare(a,b) ≤ 0` is such a stable sort, hence computes the
  same list.
* A JS `Map` built by insertion groups its keys in first-occurrence
  order; `groupBy` below reproduces that.
* `reduce((s, r) => s + f r, 0)` is embedded as `(l.map f).sum`.
* The empty weekly report uses `''` for its week boundaries; here the
  boundary type is `Option Nat`, with `none` standing for `''`.
-/

structure InventoryRecord where
  item_name : String
  date : Nat
  opening_stock : Nat
  new_stock : Nat
  new_balance : Nat
  issued_production : Nat
  returns : Nat
  rebagging : Nat
  damaged : Nat
  closing_stock : Nat
deriving DecidableEq, Repr

instance : Inhabited InventoryRecord :=
  ⟨{ item_name := "", date := 0, opening_stock := 0, new_stock := 0, new_balance := 0,
     issued_production := 0, returns := 0, rebagging := 0, damaged := 0, closing_stock := 0 }⟩

/-- Keys of a list in first-occurrence order: the iteration order of a JS
`Map` populated by a forEach over the list. -/
def firstKeys {α K : Type} [DecidableEq K] (key : α → K) : List α → List K
  | [] => []
  | a :: l => key a :: (firstKeys key l).filter (fun k => decide (k ≠ key a))

/-- Grouping of a list by a key, as the JS pattern
`Map<K, T[]>` + forEach-push produces it: keys in first-occurrence order,
each bucket holding all matching elements in list order. -/
def groupBy {α K : Type} [DecidableEq K] (key : α → K) (l : List α) : List (K × List α) :=
  (firstKeys key l).map (fun k => (k, l.filter (fun a => decide (key a = k))))

/-- The last element of a list, with the `Inhabited` default for `[]`;
`arr[arr.length - 1]` in the source (always applied to nonempty arrays). -/
def lastI {α : Type} [Inhabited α] (l : List α) : α := l.getLastD default

/-- `Math.floor((today - date.getTime()) / (1000*60*60*24))` with the date
given as a day index. -/
def daysSince (today : Int) (d : Nat) : Int :=
  (today - (d : Int) * 86400000).fdiv 86400000

/-- Weekday short name of a day index;
`new Date(date).toLocaleDateString('en-US', { weekday: 'short' })` (UTC):
day 0 (1970-01-01) is a Thursday. -/
def dayName (d : Nat) : String :=
  (["Thu", "Fri", "Sat", "Sun", "Mon", "Tue", "Wed"].getD (d % 7) "")

/-- Record order used by `sort((a, b) => dateB - dateA)` (descending date;
stable on ties). -/
def dateDesc (a b : InventoryRecord) : Prop := b.date ≤ a.date

instance : DecidableRel dateDesc := fun _ _ => Nat.decLe _ _

instance : IsTotal InventoryRecord dateDesc := ⟨fun _ _ => Nat.le_total _ _⟩

instance : IsTrans InventoryRecord dateDesc := ⟨fun _ _ _ h1 h2 => Nat.le_trans h2 h1⟩

/-- Record order used by `sort((a, b) => dateA - dateB)` (ascending date;
stable on ties). -/
def dateAsc (a b : InventoryRecord) : Prop := a.date ≤ b.date

instance : DecidableRel dateAsc := fun _ _ => Nat.decLe _ _

instance : IsTotal InventoryRecord dateAsc := ⟨fun _ _ => Nat.le_total _ _⟩

instance : IsTrans InventoryRecord dateAsc := ⟨fun _ _ _ h1 h2 => Nat.le_trans h1 h2⟩

/-- The group's `sortedRecords[0]` after sorting descending by date: the
first record carrying the maximum date in the bucket. -/
def latestOf (rs : List InventoryRecord) : InventoryRecord :=
  (List.insertionSort dateDesc rs).headI

/-- The group's `sortedRecords[0]` after sorting ascending by date. -/
def earliestOf (rs : List InventoryRecord) : InventoryRecord :=
  (List.insertionSort dateAsc rs).headI

/-- The group's `sortedRecords[sortedRecords.length - 1]` after sorting
ascending by date. -/
def lastAscOf (rs : List InventoryRecord) : InventoryRecord :=
  lastI (List.insertionSort dateAsc rs)

structure OutOfStockRow where
  item_name : String
  last_stock : Nat
  last_date : Nat
  days_since_stock : Int
deriving DecidableEq, Repr

def daysDesc (a b : OutOfStockRow) : Prop := b.days_since_stock ≤ a.days_since_stock

instance : DecidableRel daysDesc := fun _ _ => Int.decLe _ _

instance : IsTotal OutOfStockRow daysDesc := ⟨fun _ _ => Int.le_total _ _⟩

instance : IsTrans OutOfStockRow daysDesc := ⟨fun _ _ _ h1 h2 => Int.le_trans h2 h1⟩

/-- Row construction of `generateOutOfStockReport` for one product group. -/
def mkOutOfStockRow (today : Int) (g : String × List InventoryRecord) : OutOfStockRow :=
  let latest := latestOf g.2
  { item_name := g.1
    last_stock := latest.closing_stock
    last_date := latest.date
    days_since_stock := daysSince today latest.date }

/-- `generateOutOfStockReport`: group by product, keep products whose
latest record has zero closing stock, sort by days-since descending. -/
def generateOutOfStockReport (today : Int) (l : List InventoryRecord) : List OutOfStockRow :=
  List.insertionSort daysDesc
    (((groupBy (fun r => r.item_name) l).map (mkOutOfStockRow today)).filter
      (fun row => decide (row.last_stock = 0)))

structure DailyActivity where
  item_name : String
  new_stock : Nat
  issued_production : Nat
  returns : Nat
  rebagging : Nat
  damaged : Nat
  opening_stock : Nat
  closing_stock : Nat
  net_change : Int
deriving DecidableEq, Repr

structure StockMovementRow where
  date : Nat
  total_in : Nat
  total_out : Nat
  net_change : Int
  product_count : Nat
  daily_activities : List DailyActivity
deriving DecidableEq, Repr

def movementDateAsc (a b : StockMovementRow) : Prop := a.date ≤ b.date

instance : DecidableRel movementDateAsc := fun _ _ => Nat.decLe _ _

instance : IsTotal StockMovementRow movementDateAsc := ⟨fun _ _ => Nat.le_total _ _⟩

instance : IsTrans StockMovementRow movementDateAsc := ⟨fun _ _ _ h1 h2 => Nat.le_trans h1 h2⟩

/-- Row construction of `generateStockMovementReport` for one date group. -/
def mkStockMovementRow (g : Nat × List InventoryRecord) : StockMovementRow :=
  let totalIn : Nat := (g.2.map (fun r => r.new_stock + r.returns + r.rebagging)).sum
  let totalOut : Nat := (g.2.map (fun r => r.issued_production + r.damaged)).sum
  { date := g.1
    total_in := totalIn
    total_out := totalOut
    net_change := (totalIn : Int) - (totalOut : Int)
    product_count := g.2.length
    daily_activities := g.2.map (fun r =>
      let stockIn : Nat := r.new_stock + r.returns + r.rebagging
      let stockOut : Nat := r.issued_production + r.damaged
      { item_name := r.item_name
        new_stock := r.new_stock
        issued_production := r.issued_production
        returns := r.returns
        rebagging := r.rebagging
        damaged := r.damaged
        opening_stock := r.opening_stock
        closing_stock := r.closing_stock
        net_change := (stockIn : Int) - (stockOut : Int) }) }

/-- `generateStockMovementReport`: group by date, total the in/out
movements, sort ascending by date. -/
def generateStockMovementReport (l : List InventoryRecord) : List StockMovementRow :=
  List.insertionSort movementDateAsc
    ((groupBy (fun r => r.date) l).map mkStockMovementRow)

structure StockBalanceRow where
  item_name : String
  opening_stock : Nat
  closing_stock : Nat
  net_change : Int
  movement_type : String
deriving DecidableEq, Repr

def absNetDesc (a b : StockBalanceRow) : Prop := b.net_change.natAbs ≤ a.net_change.natAbs

instance : DecidableRel absNetDesc := fun _ _ => Nat.decLe _ _

instance : IsTotal StockBalanceRow absNetDesc := ⟨fun _ _ => Nat.le_total _ _⟩

instance : IsTrans StockBalanceRow absNetDesc := ⟨fun _ _ _ h1 h2 => Nat.le_trans h2 h1⟩

/-- `generateStockBalanceReport`: first/last record in range per product. -/
def generateStockBalanceReport (l : List InventoryRecord) : List StockBalanceRow :=
  List.insertionSort absNetDesc
    ((groupBy (fun r => r.item_name) l).map (fun g =>
      let firstRecord := earliestOf g.2
      let lastRecord := lastAscOf g.2
      let netChange : Int := (lastRecord.closing_stock : Int) - (firstRecord.opening_stock : Int)
      { item_name := g.1
        opening_stock := firstRecord.opening_stock
        closing_stock := lastRecord.closing_stock
        net_change := netChange
        movement_type :=
          if 0 < netChange then "increasing"
          else if netChange < 0 then "decreasing"
          else "stable" }))

structure ProductionRow where
  item_name : String
  total_issued : Nat
  avg_daily_usage : ℚ
  last_issued_date : Nat
  stock_level : Nat
deriving DecidableEq, Repr

def issuedDesc (a b : ProductionRow) : Prop := b.total_issued ≤ a.total_issued

instance : DecidableRel issuedDesc := fun _ _ => Nat.decLe _ _

instance : IsTotal ProductionRow issuedDesc := ⟨fun _ _ => Nat.le_total _ _⟩

instance : IsTrans ProductionRow issuedDesc := ⟨fun _ _ _ h1 h2 => Nat.le_trans h2 h1⟩

/-- Row construction of `generateProductionReport` for one product group. -/
def mkProductionRow (g : String × List InventoryRecord) : ProductionRow :=
  let totalIssued : Nat := (g.2.map (fun r => r.issued_production)).sum
  let lastRecord := latestOf g.2
  { item_name := g.1
    total_issued := totalIssued
    avg_daily_usage := (totalIssued : ℚ) / (g.2.length : ℚ)
    last_issued_date := lastRecord.date
    stock_level := lastRecord.closing_stock }

/-- `generateProductionReport`: per-product issued totals and mean usage,
keeping products with positive total, sorted descending by total. -/
def generateProductionReport (l : List InventoryRecord) : List ProductionRow :=
  List.insertionSort issuedDesc
    (((groupBy (fun r => r.item_name) l).map mkProductionRow).filter
      (fun row => decide (0 < row.total_issued)))

structure ReturnsRebaggingRow where
  item_name : String
  total_returns : Nat
  total_rebagging : Nat
  return_rate : ℚ
  last_activity : Nat
deriving DecidableEq, Repr

def retRebDesc (a b : ReturnsRebaggingRow) : Prop :=
  b.total_returns + b.total_rebagging ≤ a.total_returns + a.total_rebagging

instance : DecidableRel retRebDesc := fun _ _ => Nat.decLe _ _

instance : IsTotal ReturnsRebaggingRow retRebDesc := ⟨fun _ _ => Nat.le_total _ _⟩

instance : IsTrans ReturnsRebaggingRow retRebDesc := ⟨fun _ _ _ h1 h2 => Nat.le_trans h2 h1⟩

/-- Row construction of `generateReturnsRebaggingReport` for one group. -/
def mkReturnsRebaggingRow (g : String × List InventoryRecord) : ReturnsRebaggingRow :=
  let totalReturns : Nat := (g.2.map (fun r => r.returns)).sum
  let totalRebagging : Nat := (g.2.map (fun r => r.rebagging)).sum
  let totalStockIn : Nat := (g.2.map (fun r => r.new_stock)).sum
  let lastRecord := latestOf g.2
  { item_name := g.1
    total_returns := totalReturns
    total_rebagging := totalRebagging
    return_rate := if 0 < totalStockIn then (totalReturns : ℚ) / (totalStockIn : ℚ) * 100 else 0
    last_activity := lastRecord.date }

/-- `generateReturnsRebaggingReport`. -/
def generateReturnsRebaggingReport (l : List InventoryRecord) : List ReturnsRebaggingRow :=
  List.insertionSort retRebDesc
    (((groupBy (fun r => r.item_name) l).map mkReturnsRebaggingRow).filter
      (fun row => decide (0 < row.total_returns ∨ 0 < row.total_rebagging)))

structure DamagedStockRow where
  item_name : String
  total_damaged : Nat
  damage_percentage : ℚ
  last_damage_date : Nat
  total_stock_in : Nat
deriving DecidableEq, Repr

def damagePctDesc (a b : DamagedStockRow) : Prop := b.damage_percentage ≤ a.damage_percentage

instance : DecidableRel damagePctDesc := fun _ _ => Rat.instDecidableLe _ _

instance : IsTotal DamagedStockRow damagePctDesc := ⟨fun _ _ => le_total _ _⟩

instance : IsTrans DamagedStockRow damagePctDesc := ⟨fun _ _ _ h1 h2 => le_trans h2 h1⟩

/-- Row construction of `generateDamagedStockReport` for one group. -/
def mkDamagedStockRow (g : String × List InventoryRecord) : DamagedStockRow :=
  let totalDamaged : Nat := (g.2.map (fun r => r.damaged)).sum
  let totalStockIn : Nat := (g.2.map (fun r => r.new_stock)).sum
  let lastRecord := latestOf g.2
  { item_name := g.1
    total_damaged := totalDamaged
    damage_percentage :=
      if 0 < totalStockIn then (totalDamaged : ℚ) / (totalStockIn : ℚ) * 100 else 0
    last_damage_date := lastRecord.date
    total_stock_in := totalStockIn }

/-- `generateDamagedStockReport`. -/
def generateDamagedStockReport (l : List InventoryRecord) : List DamagedStockRow :=
  List.insertionSort damagePctDesc
    (((groupBy (fun r => r.item_name) l).map mkDamagedStockRow).filter
      (fun row => decide (0 < row.total_damaged)))

structure StockHistoryRow where
  item_name : String
  total_records : Nat
  first_record : Nat
  last_record : Nat
  stock_trend : String
deriving DecidableEq, Repr

def recordsDesc (a b : StockHistoryRow) : Prop := b.total_records ≤ a.total_records

instance : DecidableRel recordsDesc := fun _ _ => Nat.decLe _ _

instance : IsTotal StockHistoryRow recordsDesc := ⟨fun _ _ => Nat.le_total _ _⟩

instance : IsTrans StockHistoryRow recordsDesc := ⟨fun _ _ _ h1 h2 => Nat.le_trans h2 h1⟩

/-- `generateStockHistoryReport`. -/
def generateStockHistoryReport (l : List InventoryRecord) : List StockHistoryRow :=
  List.insertionSort recordsDesc
    ((groupBy (fun r => r.item_name) l).map (fun g =>
      let firstRecord := earliestOf g.2
      let lastRecord := lastAscOf g.2
      { item_name := g.1
        total_records := g.2.length
        first_record := firstRecord.date
        last_record := lastRecord.date
        stock_trend :=
          if firstRecord.opening_stock < lastRecord.closing_stock then "increasing"
          else if lastRecord.closing_stock < firstRecord.opening_stock then "decreasing"
          else "stable" }))

structure WeeklySummary where
  total_stock_in : Nat
  total_stock_out : Nat
  total_returns : Nat
  total_rebagging : Nat
  total_damaged : Nat
  net_change : Int
deriving DecidableEq, Repr

structure ProductMovementRow where
  item_name : String
  opening_stock : Nat
  closing_stock : Nat
  total_stock_in : Nat
  total_stock_out : Nat
  total_returns : Nat
  total_rebagging : Nat
  total_damaged : Nat
  net_change : Int
  movement_percentage : ℚ
  activity_level : String
  days_active : Nat
deriving DecidableEq, Repr

structure DailySummaryRow where
  date : Nat
  day_name : String
  total_transactions : Nat
  net_change : Int
  top_product : String
  total_stock_in : Nat
  total_stock_out : Nat
  total_returns : Nat
  total_rebagging : Nat
  total_damaged : Nat
  products_active : Nat
  most_active_product : String
  most_active_product_movements : Nat
deriving DecidableEq, Repr

structure EfficiencyMetrics where
  return_rate : ℚ
  damage_rate : ℚ
  rebagging_rate : ℚ
  stock_turnover : ℚ
deriving DecidableEq, Repr

structure WeeklyReport where
  week_start : Option Nat
  week_end : Option Nat
  total_products : Nat
  total_movements : Nat
  summary : WeeklySummary
  product_movements : List ProductMovementRow
  daily_summary : List DailySummaryRow
  efficiency_metrics : EfficiencyMetrics
deriving DecidableEq, Repr

/-- The five-field activity total used by the weekly report for activity
levels, the zero-activity filter and the product-movement sort order. -/
def weeklyActivityOf (row : ProductMovementRow) : Nat :=
  row.total_stock_in + row.total_stock_out + row.total_returns +
    row.total_rebagging + row.total_damaged

def weeklyActivityDesc (a b : ProductMovementRow) : Prop :=
  weeklyActivityOf b ≤ weeklyActivityOf a

instance : DecidableRel weeklyActivityDesc := fun _ _ => Nat.decLe _ _

instance : IsTotal ProductMovementRow weeklyActivityDesc := ⟨fun _ _ => Nat.le_total _ _⟩

instance : IsTrans ProductMovementRow weeklyActivityDesc :=
  ⟨fun _ _ _ h1 h2 => Nat.le_trans h2 h1⟩

def dailySummaryDateAsc (a b : DailySummaryRow) : Prop := a.date ≤ b.date

instance : DecidableRel dailySummaryDateAsc := fun _ _ => Nat.decLe _ _

instance : IsTotal DailySummaryRow dailySummaryDateAsc := ⟨fun _ _ => Nat.le_total _ _⟩

instance : IsTrans DailySummaryRow dailySummaryDateAsc :=
  ⟨fun _ _ _ h1 h2 => Nat.le_trans h1 h2⟩

/-- Order of `sort((a, b) => b[1] - a[1])` on (name, total) pairs. -/
def sndDesc (a b : String × Nat) : Prop := b.2 ≤ a.2

instance : DecidableRel sndDesc := fun _ _ => Nat.decLe _ _

instance : IsTotal (String × Nat) sndDesc := ⟨fun _ _ => Nat.le_total _ _⟩

instance : IsTrans (String × Nat) sndDesc := ⟨fun _ _ _ h1 h2 => Nat.le_trans h2 h1⟩

/-- Order of `sort((a, b) => Math.abs(b[1]) - Math.abs(a[1]))` on
(name, net-change) pairs. -/
def absSndDesc (a b : String × Int) : Prop := b.2.natAbs ≤ a.2.natAbs

instance : DecidableRel absSndDesc := fun _ _ => Nat.decLe _ _

instance : IsTotal (String × Int) absSndDesc := ⟨fun _ _ => Nat.le_total _ _⟩

instance : IsTrans (String × Int) absSndDesc := ⟨fun _ _ _ h1 h2 => Nat.le_trans h2 h1⟩

/-- Product-movement row of `generateWeeklyReport` for one product group. -/
def mkProductMovementRow (g : String × List InventoryRecord) : ProductMovementRow :=
  let sortedRecords := List.insertionSort dateAsc g.2
  let openingStock : Nat := sortedRecords.headI.opening_stock
  let closingStock : Nat := (lastI sortedRecords).closing_stock
  let stockIn : Nat := (g.2.map (fun r => r.new_stock)).sum
  let stockOut : Nat := (g.2.map (fun r => r.issued_production)).sum
  let returnsTotal : Nat := (g.2.map (fun r => r.returns)).sum
  let rebaggingTotal : Nat := (g.2.map (fun r => r.rebagging)).sum
  let damagedTotal : Nat := (g.2.map (fun r => r.damaged)).sum
  let netChange : Int := (stockIn : Int) - (stockOut : Int)
  let totalActivity : Nat := stockIn + stockOut + returnsTotal + rebaggingTotal + damagedTotal
  { item_name := g.1
    opening_stock := openingStock
    closing_stock := closingStock
    total_stock_in := stockIn
    total_stock_out := stockOut
    total_returns := returnsTotal
    total_rebagging := rebaggingTotal
    total_damaged := damagedTotal
    net_change := netChange
    movement_percentage :=
      if 0 < openingStock then (netChange.natAbs : ℚ) / (openingStock : ℚ) * 100 else 0
    activity_level :=
      if 100 < totalActivity then "high"
      else if 50 < totalActivity then "medium"
      else "low"
    days_active := (g.2.map (fun r => r.date)).dedup.length }

/-- Daily-summary row of `generateWeeklyReport` for one date group. -/
def mkDailySummaryRow (g : Nat × List InventoryRecord) : DailySummaryRow :=
  let stockIn : Nat := (g.2.map (fun r => r.new_stock)).sum
  let stockOut : Nat := (g.2.map (fun r => r.issued_production)).sum
  let returnsTotal : Nat := (g.2.map (fun r => r.returns)).sum
  let rebaggingTotal : Nat := (g.2.map (fun r => r.rebagging)).sum
  let damagedTotal : Nat := (g.2.map (fun r => r.damaged)).sum
  let productActivity : List (String × Nat) :=
    (groupBy (fun r => r.item_name) g.2).map (fun p =>
      (p.1, (p.2.map (fun r =>
        r.new_stock + r.issued_production + r.returns + r.rebagging + r.damaged)).sum))
  let mostActive : Option (String × Nat) := (List.insertionSort sndDesc productActivity).head?
  let productChanges : List (String × Int) :=
    (groupBy (fun r => r.item_name) g.2).map (fun p =>
      (p.1, (p.2.map (fun r => (r.new_stock : Int) - (r.issued_production : Int))).sum))
  let topPair : Option (String × Int) := (List.insertionSort absSndDesc productChanges).head?
  { date := g.1
    day_name := dayName g.1
    total_transactions := g.2.length
    net_change := (stockIn : Int) - (stockOut : Int)
    top_product :=
      match topPair with
      | none => "None"
      | some p => if p.1 = "" then "None" else p.1
    total_stock_in := stockIn
    total_stock_out := stockOut
    total_returns := returnsTotal
    total_rebagging := rebaggingTotal
    total_damaged := damagedTotal
    products_active := (g.2.map (fun r => r.item_name)).dedup.length
    most_active_product :=
      match mostActive with
      | none => "None"
      | some p => if p.1 = "" then "None" else p.1
    most_active_product_movements :=
      match mostActive with
      | none => 0
      | some p => p.2 }

/-- The weekly report returned for an empty filtered set. -/
def emptyWeeklyReport : WeeklyReport :=
  { week_start := none
    week_end := none
    total_products := 0
    total_movements := 0
    summary :=
      { total_stock_in := 0, total_stock_out := 0, total_returns := 0,
        total_rebagging := 0, total_damaged := 0, net_change := 0 }
    product_movements := []
    daily_summary := []
    efficiency_metrics :=
      { return_rate := 0, damage_rate := 0, rebagging_rate := 0, stock_turnover := 0 } }

/-- `generateWeeklyReport`.  The source sorts `filteredRecords` in place
(ascending by date) before grouping, so grouping below runs over the
sorted list. -/
def generateWeeklyReport (l : List InventoryRecord) : WeeklyReport :=
  if l = [] then emptyWeeklyReport
  else
    let sortedRecords := List.insertionSort dateAsc l
    let summary : WeeklySummary :=
      { total_stock_in := (sortedRecords.map (fun r => r.new_stock)).sum
        total_stock_out := (sortedRecords.map (fun r => r.issued_production)).sum
        total_returns := (sortedRecords.map (fun r => r.returns)).sum
        total_rebagging := (sortedRecords.map (fun r => r.rebagging)).sum
        total_damaged := (sortedRecords.map (fun r => r.damaged)).sum
        net_change :=
          (sortedRecords.map (fun r => (r.new_stock : Int) - (r.issued_production : Int))).sum }
    let productMovements : List ProductMovementRow :=
      List.insertionSort weeklyActivityDesc
        (((groupBy (fun r => r.item_name) sortedRecords).map mkProductMovementRow).filter
          (fun row => decide (0 < weeklyActivityOf row)))
    let dailySummary : List DailySummaryRow :=
      List.insertionSort dailySummaryDateAsc
        ((groupBy (fun r => r.date) sortedRecords).map mkDailySummaryRow)
    { week_start := some sortedRecords.headI.date
      week_end := some (lastI sortedRecords).date
      total_products := productMovements.length
      total_movements := l.length
      summary := summary
      product_movements := productMovements
      daily_summary := dailySummary
      efficiency_metrics :=
        { return_rate :=
            if 0 < summary.total_stock_in then
              (summary.total_returns : ℚ) / (summary.total_stock_in : ℚ) * 100
            else 0
          damage_rate :=
            if 0 < summary.total_stock_in then
              (summary.total_damaged : ℚ) / (summary.total_stock_in : ℚ) * 100
            else 0
          rebagging_rate :=
            if 0 < summary.total_stock_in then
              (summary.total_rebagging : ℚ) / (summary.total_stock_in : ℚ) * 100
            else 0
          stock_turnover :=
            if 0 < summary.total_stock_out then
              (summary.total_stock_out : ℚ) /
                ((if summary.total_stock_in = 0 then 1 else summary.total_stock_in : Nat) : ℚ)
            else 0 } }

structure ReportData where
  outOfStockProducts : List OutOfStockRow
  stockMovements : List StockMovementRow
  stockBalances : List StockBalanceRow
  productionIssues : List ProductionRow
  returnsRebagging : List ReturnsRebaggingRow
  damagedStock : List DamagedStockRow
  stockHistory : List StockHistoryRow
  weeklyReport : WeeklyReport
deriving DecidableEq, Repr

/-- The date-range filter of `generateReports`: keep a record iff
`startDate <= record.date <= endDate` (dates compared as calendar dates). -/
def inRange (startDate endDate : Nat) (r : InventoryRecord) : Bool :=
  decide (startDate ≤ r.date) && decide (r.date ≤ endDate)

/-- `generateReports`: filter by the date range, then build every view.
`today` is the clock instant read by `generateOutOfStockReport`. -/
def generateReports (records : List InventoryRecord) (startDate endDate : Nat)
    (today : Int) : ReportData :=
  let filteredRecords := records.filter (inRange startDate endDate)
  { outOfStockProducts := generateOutOfStockReport today filteredRecords
    stockMovements := generateStockMovementReport filteredRecords
    stockBalances := generateStockBalanceReport filteredRecords
    productionIssues := generateProductionReport filteredRecords
    returnsRebagging := generateReturnsRebaggingReport filteredRecords
    damagedStock := generateDamagedStockReport filteredRecords
    stockHistory := generateStockHistoryReport filteredRecords
    weeklyReport := generateWeeklyReport filteredRecords }

/-- `calculateValues` of the entry form: from the six entered quantities,
`newBalance = openingStock + newStock` and
`closingStock = Math.max(0, newBalance - issuedProduction + returns + rebagging - damaged)`.
The pair returned is `(newBalance, closingStock)`. -/
def calculateValues (openingStock newStock issuedProduction returns rebagging
    damaged : Nat) : Nat × Nat :=
  let newBalance : Nat := openingStock + newStock
  let closingStock : Nat :=
    ((newBalance : Int) - (issuedProduction : Int) + (returns : Int) + (rebagging : Int) -
      (damaged : Int)).toNat
  (newBalance, closingStock)

/-- The record object `handleSaveRecord` persists, with the derived
fields as `calculateValues` leaves them in the form state. -/
def buildFormRecord (itemName : String) (date : Nat) (openingStock newStock
    issuedProduction returns rebagging damaged : Nat) : InventoryRecord :=
  let values := calculateValues openingStock newStock issuedProduction returns rebagging damaged
  { item_name := itemName
    date := date
    opening_stock := openingStock
    new_stock := newStock
    new_balance := values.1
    issued_production := issuedProduction
    returns := returns
    rebagging := rebagging
    damaged := damaged
    closing_stock := values.2 }

/-- Replace the clock-derived `days_since_stock` field of an out-of-stock
row by `0`, keeping the clock-independent fields. -/
def scrubOutRow (row : OutOfStockRow) : OutOfStockRow :=
  { row with days_since_stock := 0 }

/-- A report bundle with the clock-derived `days_since_stock` fields
erased. -/
def scrubReports (rd : ReportData) : ReportData :=
  { rd with outOfStockProducts := rd.outOfStockProducts.map scrubOutRow }

/-- Ascending order of product groups by the date of their latest record;
the clock-free counterpart of `daysDesc` on the built rows. -/
def groupLatestAsc (a b : String × List InventoryRecord) : Prop :=
  (latestOf a.2).date ≤ (latestOf b.2).date

instance : DecidableRel groupLatestAsc := fun _ _ => Nat.decLe _ _

/-- Sample record: product A, day 1 (spec section 8 example, first row). -/
def recA : InventoryRecord :=
  { item_name := "A", date := 1, opening_stock := 10, new_stock := 5, new_balance := 15,
    issued_production := 3, returns := 0, rebagging := 0, damaged := 0, closing_stock := 12 }

/-- Sample record: product A, day 2, stock runs out (spec section 8
example, second row). -/
def recB : InventoryRecord :=
  { item_name := "A", date := 2, opening_stock := 12, new_stock := 0, new_balance := 12,
    issued_production := 12, returns := 0, rebagging := 0, damaged := 0, closing_stock := 0 }

/-- Sample record: returns exceed the new stock received. -/
def recC : InventoryRecord :=
  { item_name := "C", date := 1, opening_stock := 0, new_stock := 1, new_balance := 1,
    issued_production := 0, returns := 2, rebagging := 0, damaged := 0, closing_stock := 3 }

/-- Sample record: a return with no new stock at all. -/
def recD : InventoryRecord :=
  { item_name := "D", date := 3, opening_stock := 0, new_stock := 0, new_balance := 0,
    issued_production := 0, returns := 1, rebagging := 0, damaged := 0, closing_stock := 1 }

theorem mem_firstKeys {α K : Type} [DecidableEq K] (key : α → K) (l : List α) (k : K) :
    k ∈ firstKeys key l ↔ ∃ a ∈ l, key a = k := by
  induction l with
  | nil => simp [firstKeys]
  | cons a t ih =>
    simp only [firstKeys, List.mem_cons, List.mem_filter, decide_eq_true_eq]
    constructor
    · rintro (rfl | ⟨hk, _⟩)
      · exact ⟨a, Or.inl rfl, rfl⟩
      · obtain ⟨b, hb, rfl⟩ := ih.1 hk
        exact ⟨b, Or.inr hb, rfl⟩
    · rintro ⟨b, rfl | hb, rfl⟩
      · exact Or.inl rfl
      · by_cases hkey : key b = key a
        · exact Or.inl hkey
        · exact Or.inr ⟨ih.2 ⟨b, hb, rfl⟩, hkey⟩

theorem firstKeys_nodup {α K : Type} [DecidableEq K] (key : α → K) (l : List α) :
    (firstKeys key l).Nodup := by
  induction l with
  | nil => simp [firstKeys]
  | cons a t ih =>
    simp only [firstKeys, List.nodup_cons]
    refine ⟨fun h => ?_, ih.filter _⟩
    have := (List.mem_filter.1 h).2
    simp at this

theorem mem_groupBy {α K : Type} [DecidableEq K] (key : α → K) (l : List α)
    (g : K × List α) :
    g ∈ groupBy key l ↔
      g.1 ∈ firstKeys key l ∧ g.2 = l.filter (fun a => decide (key a = g.1)) := by
  unfold groupBy
  constructor
  · intro h
    obtain ⟨k, hk, hg⟩ := List.mem_map.1 h
    cases hg
    exact ⟨hk, rfl⟩
  · rintro ⟨h1, h2⟩
    refine List.mem_map.2 ⟨g.1, h1, ?_⟩
    cases g with
    | mk k rs => simp only at h2 ⊢; rw [h2]

theorem groupBy_snd_ne_nil {α K : Type} [DecidableEq K] (key : α → K) (l : List α)
    (g : K × List α) (hg : g ∈ groupBy key l) : g.2 ≠ [] := by
  obtain ⟨h1, h2⟩ := (mem_groupBy key l g).1 hg
  obtain ⟨a, ha, hk⟩ := (mem_firstKeys key l g.1).1 h1
  intro hnil
  have : a ∈ l.filter (fun a => decide (key a = g.1)) :=
    List.mem_filter.2 ⟨ha, by simp [hk]⟩
  rw [← h2, hnil] at this
  cases this

theorem sum_map_add_nat {α : Type} (f g : α → Nat) (l : List α) :
    (l.map (fun a => f a + g a)).sum = (l.map f).sum + (l.map g).sum := by
  induction l with
  | nil => rfl
  | cons a t ih => simp only [List.map_cons, List.sum_cons, ih]; omega

theorem sum_map_single {K : Type} [DecidableEq K] (ks : List K) (k0 : K) (v : Nat)
    (nd : ks.Nodup) (hk : k0 ∈ ks) :
    (ks.map (fun k => if k0 = k then v else 0)).sum = v := by
  induction ks with
  | nil => cases hk
  | cons a t ih =>
    have hzero : k0 ∉ t → (t.map (fun k => if k0 = k then v else 0)).sum = 0 := by
      intro hnot
      apply List.sum_eq_zero
      intro x hx
      obtain ⟨k, hkmem, hkx⟩ := List.mem_map.1 hx
      have hne : k0 ≠ k := fun h => hnot (h ▸ hkmem)
      rw [if_neg hne] at hkx
      omega
    rcases List.mem_cons.1 hk with rfl | hkt
    · rw [List.map_cons, List.sum_cons, if_pos rfl,
        hzero (List.nodup_cons.1 nd).1, Nat.add_zero]
    · have hne : k0 ≠ a := by
        rintro rfl
        exact (List.nodup_cons.1 nd).1 hkt
      rw [List.map_cons, List.sum_cons, if_neg hne,
        ih (List.nodup_cons.1 nd).2 hkt, Nat.zero_add]

theorem sum_over_keys {α K : Type} [DecidableEq K] (key : α → K) (f : α → Nat)
    (l : List α) :
    ∀ (ks : List K), ks.Nodup → (∀ a ∈ l, key a ∈ ks) →
      (ks.map (fun k => ((l.filter (fun a => decide (key a = k))).map f).sum)).sum
        = (l.map f).sum := by
  induction l with
  | nil =>
    intro ks _ _
    simp
  | cons a t ih =>
    intro ks nd hcov
    have hstep : ∀ k ∈ ks,
        (((a :: t).filter (fun x => decide (key x = k))).map f).sum
          = (if key a = k then f a else 0)
            + ((t.filter (fun x => decide (key x = k))).map f).sum := by
      intro k _
      by_cases h : key a = k
      · simp [List.filter_cons, h]
      · simp [List.filter_cons, h]
    rw [List.map_congr_left hstep, sum_map_add_nat,
      sum_map_single ks (key a) (f a) nd (hcov a (List.mem_cons_self a t)),
      ih ks nd (fun x hx => hcov x (List.mem_cons_of_mem a hx))]
    simp

theorem sum_groupBy_key {α K : Type} [DecidableEq K] (key : α → K) (f : α → Nat)
    (l : List α) :
    ((groupBy key l).map (fun g => (g.2.map f).sum)).sum = (l.map f).sum := by
  unfold groupBy
  rw [List.map_map]
  exact sum_over_keys key f l (firstKeys key l) (firstKeys_nodup key l)
    (fun a ha => (mem_firstKeys key l (key a)).2 ⟨a, ha, rfl⟩)

theorem daysSince_eq (t : Int) (d : Nat) : daysSince t d = t / 86400000 - d := by
  unfold daysSince
  rw [Int.fdiv_eq_ediv _ (by decide)]
  have h : t - (d : Int) * 86400000 = t + (-(d : Int)) * 86400000 := by ring
  rw [h, Int.add_mul_ediv_right _ _ (by decide)]
  ring

theorem latestOf_mem (rs : List InventoryRecord) (h : rs ≠ []) : latestOf rs ∈ rs := by
  unfold latestOf
  have hperm := List.perm_insertionSort dateDesc rs
  cases hsort : List.insertionSort dateDesc rs with
  | nil =>
    rw [hsort] at hperm
    exact absurd hperm.symm.eq_nil h
  | cons x xs =>
    have : x ∈ List.insertionSort dateDesc rs := by
      rw [hsort]
      exact List.mem_cons_self x xs
    simpa [List.headI] using (List.mem_insertionSort dateDesc).1 this

theorem date_le_latestOf (rs : List InventoryRecord) (r : InventoryRecord)
    (hr : r ∈ rs) : r.date ≤ (latestOf rs).date := by
  have hsorted := List.sorted_insertionSort dateDesc rs
  have hmem : r ∈ List.insertionSort dateDesc rs := (List.mem_insertionSort dateDesc).2 hr
  unfold latestOf
  cases hsort : List.insertionSort dateDesc rs with
  | nil =>
    rw [hsort] at hmem
    cases hmem
  | cons x xs =>
    rw [hsort] at hsorted hmem
    rcases List.mem_cons.1 hmem with rfl | hm
    · exact Nat.le_refl _
    · exact List.rel_of_sorted_cons hsorted r hm

theorem mem_sort_filter_map {α β : Type} (r : β → β → Prop) [DecidableRel r]
    (p : β → Bool) (f : α → β) (L : List α) (row : β) :
    row ∈ List.insertionSort r ((L.map f).filter p) ↔
      (∃ a ∈ L, f a = row) ∧ p row = true := by
  rw [List.mem_insertionSort, List.mem_filter, List.mem_map]

theorem mem_sort_map {α β : Type} (r : β → β → Prop) [DecidableRel r]
    (f : α → β) (L : List α) (row : β) :
    row ∈ List.insertionSort r (L.map f) ↔ ∃ a ∈ L, f a = row := by
  rw [List.mem_insertionSort, List.mem_map]

theorem five_sum_eq (rs : List InventoryRecord) :
    (rs.map (fun r => r.new_stock)).sum + (rs.map (fun r => r.issued_production)).sum
      + (rs.map (fun r => r.returns)).sum + (rs.map (fun r => r.rebagging)).sum
      + (rs.map (fun r => r.damaged)).sum
      = (rs.map (fun r =>
          r.new_stock + r.issued_production + r.returns + r.rebagging + r.damaged)).sum := by
  induction rs with
  | nil => rfl
  | cons a t ih => simp only [List.map_cons, List.sum_cons]; omega

/-- C5: for every non-negative form input, the record the form computes
and persists satisfies new_balance = opening_stock + new_stock and
closing_stock = max(0, new_balance - issued_production + returns +
rebagging - damaged); in particular closing_stock is never negative. -/
theorem form_record_invariants (itemName : String) (date openingStock newStock
    issuedProduction returnsQty rebaggingQty damagedQty : Nat) :
    (buildFormRecord itemName date openingStock newStock issuedProduction
        returnsQty rebaggingQty damagedQty).new_balance
      = (buildFormRecord itemName date openingStock newStock issuedProduction
          returnsQty rebaggingQty damagedQty).opening_stock
        + (buildFormRecord itemName date openingStock newStock issuedProduction
            returnsQty rebaggingQty damagedQty).new_stock ∧
    ((buildFormRecord itemName date openingStock newStock issuedProduction
        returnsQty rebaggingQty damagedQty).closing_stock : Int)
      = max 0 (((buildFormRecord itemName date openingStock newStock issuedProduction
          returnsQty rebaggingQty damagedQty).new_balance : Int)
            - issuedProduction + returnsQty + rebaggingQty - damagedQty) ∧
    0 ≤ ((buildFormRecord itemName date openingStock newStock issuedProduction
        returnsQty rebaggingQty damagedQty).closing_stock : Int) := by
  refine ⟨rfl, ?_, Int.natCast_nonneg _⟩
  show ((((openingStock + newStock : Nat) : Int) - issuedProduction + returnsQty
      + rebaggingQty - damagedQty).toNat : Int) = _
  rw [Int.toNat_eq_max, max_comm]
  rfl

/-- C9: aggregating an empty record list yields a well-formed report
bundle, with all seven per-view arrays empty and the weekly report fully
zeroed (empty boundaries, zero counts, all-zero summary and efficiency
metrics, empty product and daily lists). -/
theorem aggregate_empty_reports (s e : Nat) (t : Int) :
    generateReports [] s e t =
      { outOfStockProducts := [], stockMovements := [], stockBalances := [],
        productionIssues := [], returnsRebagging := [], damagedStock := [],
        stockHistory := [],
        weeklyReport :=
          { week_start := none, week_end := none, total_products := 0,
            total_movements := 0,
            summary := { total_stock_in := 0, total_stock_out := 0, total_returns := 0,
                         total_rebagging := 0, total_damaged := 0, net_change := 0 },
            product_movements := [], daily_summary := [],
            efficiency_metrics := { return_rate := 0, damage_rate := 0,
                                    rebagging_rate := 0, stock_turnover := 0 } } } := rfl

/-- C7: aggregating the already-filtered record set gives the same bundle
as aggregating the raw set: the date-range filter is idempotent, so
filtering then aggregating equals aggregating the filtered subset. -/
theorem aggregate_filter_idempotent (records : List InventoryRecord) (s e : Nat)
    (t : Int) :
    generateReports (records.filter (inRange s e)) s e t
      = generateReports records s e t := by
  unfold generateReports
  rw [List.filter_filter]
  have h : (fun a => inRange s e a && inRange s e a) = inRange s e := by
    funext a
    exact Bool.and_self _
  rw [h]

/-- C6: the sum of total_in over all date buckets of the stock-movements
view equals the sum of (new_stock + returns + rebagging) over the whole
filtered record set: grouping by date conserves the stock-in total. -/
theorem stock_in_conservation (records : List InventoryRecord) (s e : Nat) (t : Int) :
    (((generateReports records s e t).stockMovements).map (fun row => row.total_in)).sum
      = ((records.filter (inRange s e)).map
          (fun r => r.new_stock + r.returns + r.rebagging)).sum := by
  show ((generateStockMovementReport (records.filter (inRange s e))).map
      (fun row => row.total_in)).sum = _
  unfold generateStockMovementReport
  rw [List.Perm.sum_eq ((List.perm_insertionSort movementDateAsc _).map
    (fun row => row.total_in)), List.map_map]
  have h : ((fun row : StockMovementRow => row.total_in) ∘ mkStockMovementRow)
      = (fun g : Nat × List InventoryRecord =>
          (g.2.map (fun r => r.new_stock + r.returns + r.rebagging)).sum) := rfl
  rw [h]
  exact sum_groupBy_key (fun r : InventoryRecord => r.date)
    (fun r => r.new_stock + r.returns + r.rebagging) _

/-- C10: every per-product bucket of the grouping is nonempty, so the
production view's avg_daily_usage = total_issued / record_count never
divides by zero: each emitted row's mean is taken over the positive
number of records of its product. -/
theorem production_rows_well_defined (l : List InventoryRecord) :
    (∀ g ∈ groupBy (fun r : InventoryRecord => r.item_name) l, g.2 ≠ []) ∧
    (∀ row ∈ generateProductionReport l,
      0 < (l.filter (fun a => decide (a.item_name = row.item_name))).length ∧
      row.avg_daily_usage = (row.total_issued : ℚ)
        / ((l.filter (fun a => decide (a.item_name = row.item_name))).length : ℚ)) := by
  constructor
  · exact fun g hg => groupBy_snd_ne_nil _ l g hg
  · intro row hrow
    obtain ⟨⟨g, hg, hrowg⟩, _⟩ := (mem_sort_filter_map _ _ _ _ _).1 hrow
    obtain ⟨hk, hsnd⟩ := (mem_groupBy _ _ _).1 hg
    have hne := groupBy_snd_ne_nil _ l g hg
    subst hrowg
    have hfne : l.filter (fun a => decide (a.item_name = g.1)) ≠ [] := hsnd ▸ hne
    constructor
    · show 0 < (l.filter (fun a => decide (a.item_name = g.1))).length
      exact List.length_pos.2 hfne
    · show (mkProductionRow g).avg_daily_usage = ((mkProductionRow g).total_issued : ℚ)
        / ((l.filter (fun a => decide (a.item_name = g.1))).length : ℚ)
      rw [← hsnd]
      rfl

/-- Witness for C10 at a concrete one-record list. -/
theorem production_rows_well_defined_witness :
    (("A", [recA]) : String × List InventoryRecord).2 ≠ [] ∧
    (0 < ([recA].filter (fun a =>
        decide (a.item_name = (mkProductionRow ("A", [recA])).item_name))).length ∧
      (mkProductionRow ("A", [recA])).avg_daily_usage
        = ((mkProductionRow ("A", [recA])).total_issued : ℚ)
          / (([recA].filter (fun a =>
              decide (a.item_name = (mkProductionRow ("A", [recA])).item_name))).length : ℚ)) :=
  ⟨(production_rows_well_defined [recA]).1 ("A", [recA]) (by decide),
   (production_rows_well_defined [recA]).2 (mkProductionRow ("A", [recA]))
     (List.Mem.head _)⟩

/-- C8: the weekly summary's net_change is Σ(new_stock -
issued_production) over the filtered records, while each per-date
movements row computes net_change = total_in - total_out with total_in
including returns and rebagging and total_out including damaged; on a
record with a nonzero return the two figures differ. -/
theorem net_change_asymmetry (l : List InventoryRecord) :
    ((generateWeeklyReport l).summary.net_change
      = (l.map (fun r => (r.new_stock : Int) - (r.issued_production : Int))).sum) ∧
    (∀ row ∈ generateStockMovementReport l,
      row.net_change = (row.total_in : Int) - (row.total_out : Int) ∧
      row.total_in = ((l.filter (fun a => decide (a.date = row.date))).map
        (fun r => r.new_stock + r.returns + r.rebagging)).sum ∧
      row.total_out = ((l.filter (fun a => decide (a.date = row.date))).map
        (fun r => r.issued_production + r.damaged)).sum) ∧
    ((generateWeeklyReport [recD]).summary.net_change = 0 ∧
      (generateStockMovementReport [recD]).map (fun row => row.net_change) = [1]) := by
  refine ⟨?_, ?_, by decide, by decide⟩
  · by_cases hl : l = []
    · subst hl
      rfl
    · unfold generateWeeklyReport
      rw [if_neg hl]
      exact List.Perm.sum_eq ((List.perm_insertionSort dateAsc l).map
        (fun r => (r.new_stock : Int) - (r.issued_production : Int)))
  · intro row hrow
    obtain ⟨g, hg, hrowg⟩ := (mem_sort_map _ _ _ _).1 hrow
    obtain ⟨hk, hsnd⟩ := (mem_groupBy _ _ _).1 hg
    subst hrowg
    refine ⟨rfl, ?_, ?_⟩
    · show (g.2.map (fun r => r.new_stock + r.returns + r.rebagging)).sum
        = ((l.filter (fun a => decide (a.date = g.1))).map
            (fun r => r.new_stock + r.returns + r.rebagging)).sum
      rw [← hsnd]
    · show (g.2.map (fun r => r.issued_production + r.damaged)).sum
        = ((l.filter (fun a => decide (a.date = g.1))).map
            (fun r => r.issued_production + r.damaged)).sum
      rw [← hsnd]

/-- Witness for C8 at a concrete one-record list. -/
theorem net_change_asymmetry_witness :
    (mkStockMovementRow (3, [recD])).net_change
        = ((mkStockMovementRow (3, [recD])).total_in : Int)
          - ((mkStockMovementRow (3, [recD])).total_out : Int) ∧
    (mkStockMovementRow (3, [recD])).total_in
        = (([recD].filter (fun a => decide (a.date = (mkStockMovementRow (3, [recD])).date))).map
            (fun r => r.new_stock + r.returns + r.rebagging)).sum ∧
    (mkStockMovementRow (3, [recD])).total_out
        = (([recD].filter (fun a => decide (a.date = (mkStockMovementRow (3, [recD])).date))).map
            (fun r => r.issued_production + r.damaged)).sum :=
  (net_change_asymmetry [recD]).2.1 (mkStockMovementRow (3, [recD])) (by decide)

/-- Counterexample to C1: on a single record of product C with
new_stock = 1 and returns = 2, the per-product stock-in denominator is
positive (equal to 1) yet the returns view's return_rate is 200, which
is not in [0, 100]. -/
theorem return_rate_above_100 :
    (([recC].filter (fun a => decide (a.item_name = "C"))).map
        (fun r => r.new_stock)).sum = 1 ∧
    (generateReturnsRebaggingReport [recC]).map (fun row => row.return_rate)
      = [((2 : Nat) : ℚ) / ((1 : Nat) : ℚ) * 100] ∧
    ¬ (((2 : Nat) : ℚ) / ((1 : Nat) : ℚ) * 100 ≤ 100) := by
  refine ⟨by decide, rfl, by norm_num⟩

/-- C1 as amended: every rate produced by the returns/rebagging view,
the damaged-stock view and the weekly efficiency metrics is a
well-defined nonnegative rational (never NaN or Infinity), and is
exactly 0 whenever its new_stock denominator is 0; the upper bound 100
does not hold in general. -/
theorem rates_nonneg_and_zero_denominator (l : List InventoryRecord) :
    (∀ g ∈ groupBy (fun r : InventoryRecord => r.item_name) l,
      (0 ≤ (mkReturnsRebaggingRow g).return_rate ∧
        ((g.2.map (fun r => r.new_stock)).sum = 0 →
          (mkReturnsRebaggingRow g).return_rate = 0)) ∧
      (0 ≤ (mkDamagedStockRow g).damage_percentage ∧
        ((g.2.map (fun r => r.new_stock)).sum = 0 →
          (mkDamagedStockRow g).damage_percentage = 0))) ∧
    (∀ row ∈ generateReturnsRebaggingReport l, 0 ≤ row.return_rate) ∧
    (∀ row ∈ generateDamagedStockReport l,
      0 ≤ row.damage_percentage ∧
      (row.total_stock_in = 0 → row.damage_percentage = 0)) ∧
    (0 ≤ (generateWeeklyReport l).efficiency_metrics.return_rate ∧
      0 ≤ (generateWeeklyReport l).efficiency_metrics.damage_rate ∧
      0 ≤ (generateWeeklyReport l).efficiency_metrics.rebagging_rate) ∧
    ((generateWeeklyReport l).summary.total_stock_in = 0 →
      (generateWeeklyReport l).efficiency_metrics.return_rate = 0 ∧
      (generateWeeklyReport l).efficiency_metrics.damage_rate = 0 ∧
      (generateWeeklyReport l).efficiency_metrics.rebagging_rate = 0) := by
  have hnn : ∀ (R S : Nat), 0 ≤ (if 0 < S then (R : ℚ) / (S : ℚ) * 100 else 0) := by
    intro R S
    split_ifs
    · positivity
    · exact le_refl 0
  have hz : ∀ (R S : Nat), S = 0 → (if 0 < S then (R : ℚ) / (S : ℚ) * 100 else 0) = 0 := by
    intro R S h
    simp [h]
  refine ⟨?_, ?_, ?_, ?_, ?_⟩
  · intro g _
    exact ⟨⟨hnn _ _, fun h => hz _ _ h⟩, ⟨hnn _ _, fun h => hz _ _ h⟩⟩
  · intro row hrow
    obtain ⟨⟨g, _, hrowg⟩, _⟩ := (mem_sort_filter_map _ _ _ _ _).1 hrow
    subst hrowg
    exact hnn _ _
  · intro row hrow
    obtain ⟨⟨g, _, hrowg⟩, _⟩ := (mem_sort_filter_map _ _ _ _ _).1 hrow
    subst hrowg
    exact ⟨hnn _ _, fun h => hz _ _ h⟩
  · by_cases hl : l = []
    · subst hl
      exact ⟨le_refl 0, le_refl 0, le_refl 0⟩
    · unfold generateWeeklyReport
      rw [if_neg hl]
      exact ⟨hnn _ _, hnn _ _, hnn _ _⟩
  · intro hS
    by_cases hl : l = []
    · subst hl
      exact ⟨rfl, rfl, rfl⟩
    · unfold generateWeeklyReport at hS ⊢
      rw [if_neg hl] at hS ⊢
      exact ⟨hz _ _ hS, hz _ _ hS, hz _ _ hS⟩

/-- Witness for C1's amended theorem at a concrete list with a positive
and a zero denominator. -/
theorem rates_nonneg_witness :
    ((0 ≤ (mkReturnsRebaggingRow ("D", [recD])).return_rate ∧
        (([recD].map (fun r => r.new_stock)).sum = 0 →
          (mkReturnsRebaggingRow ("D", [recD])).return_rate = 0)) ∧
      (0 ≤ (mkDamagedStockRow ("D", [recD])).damage_percentage ∧
        (([recD].map (fun r => r.new_stock)).sum = 0 →
          (mkDamagedStockRow ("D", [recD])).damage_percentage = 0))) ∧
    0 ≤ (mkReturnsRebaggingRow ("C", [recC])).return_rate :=
  ⟨(rates_nonneg_and_zero_denominator [recD]).1 ("D", [recD]) (by decide),
   (rates_nonneg_and_zero_denominator [recC]).2.1 (mkReturnsRebaggingRow ("C", [recC]))
     (List.Mem.head _)⟩

/-- C2: the out-of-stock view contains a product iff its latest record
in range has closing_stock 0; each entry carries that latest record's
closing stock and date; days_since_stock is the whole-day floor of
(today - last_date); the latest record's date is the maximum date of the
product's records; and the view is sorted descending by
days_since_stock. -/
theorem out_of_stock_characterization (today : Int) (l : List InventoryRecord) :
    (∀ p : String,
      (∃ row ∈ generateOutOfStockReport today l, row.item_name = p) ↔
        ((∃ r ∈ l, r.item_name = p) ∧
          (latestOf (l.filter (fun a => decide (a.item_name = p)))).closing_stock = 0)) ∧
    (∀ row ∈ generateOutOfStockReport today l,
      row.last_stock
          = (latestOf (l.filter (fun a => decide (a.item_name = row.item_name)))).closing_stock ∧
      row.last_date
          = (latestOf (l.filter (fun a => decide (a.item_name = row.item_name)))).date ∧
      row.days_since_stock = daysSince today row.last_date ∧
      row.days_since_stock = today / 86400000 - row.last_date ∧
      (∀ r ∈ l, r.item_name = row.item_name → r.date ≤ row.last_date)) ∧
    List.Sorted daysDesc (generateOutOfStockReport today l) := by
  refine ⟨?_, ?_, List.sorted_insertionSort daysDesc _⟩
  · intro p
    constructor
    · rintro ⟨row, hrow, rfl⟩
      obtain ⟨⟨g, hg, hrowg⟩, hzero⟩ := (mem_sort_filter_map _ _ _ _ _).1 hrow
      obtain ⟨hk, hsnd⟩ := (mem_groupBy _ _ _).1 hg
      subst hrowg
      obtain ⟨a, ha, hka⟩ := (mem_firstKeys _ _ _).1 hk
      refine ⟨⟨a, ha, hka⟩, ?_⟩
      show (latestOf (l.filter (fun a => decide (a.item_name = g.1)))).closing_stock = 0
      rw [← hsnd]
      simpa using hzero
    · rintro ⟨⟨a, ha, hka⟩, h0⟩
      have hk : p ∈ firstKeys (fun r : InventoryRecord => r.item_name) l :=
        (mem_firstKeys _ _ _).2 ⟨a, ha, hka⟩
      have hg : ((p, l.filter (fun a => decide (a.item_name = p))) :
          String × List InventoryRecord)
            ∈ groupBy (fun r : InventoryRecord => r.item_name) l :=
        (mem_groupBy _ _ _).2 ⟨hk, rfl⟩
      refine ⟨mkOutOfStockRow today (p, l.filter (fun a => decide (a.item_name = p))),
        (mem_sort_filter_map _ _ _ _ _).2 ⟨⟨_, hg, rfl⟩, ?_⟩, rfl⟩
      simpa using h0
  · intro row hrow
    obtain ⟨⟨g, hg, hrowg⟩, _⟩ := (mem_sort_filter_map _ _ _ _ _).1 hrow
    obtain ⟨hk, hsnd⟩ := (mem_groupBy _ _ _).1 hg
    subst hrowg
    have e : l.filter (fun a => decide (a.item_name = g.1)) = g.2 := hsnd.symm
    refine ⟨?_, ?_, rfl, daysSince_eq today _, ?_⟩
    · show (latestOf g.2).closing_stock
        = (latestOf (l.filter (fun a => decide (a.item_name = g.1)))).closing_stock
      rw [e]
    · show (latestOf g.2).date
        = (latestOf (l.filter (fun a => decide (a.item_name = g.1)))).date
      rw [e]
    · intro r hr hname
      have hname2 : r.item_name = g.1 := hname
      show r.date ≤ (latestOf g.2).date
      refine date_le_latestOf g.2 r ?_
      rw [hsnd]
      exact List.mem_filter.2 ⟨hr, by simp [hname2]⟩

/-- Witness for C2 at a one-record list whose record has closing stock 0. -/
theorem out_of_stock_witness :
    (∃ row ∈ generateOutOfStockReport 432000000 [recB], row.item_name = "A") ∧
    (mkOutOfStockRow 432000000 ("A", [recB])).days_since_stock
      = daysSince 432000000 (mkOutOfStockRow 432000000 ("A", [recB])).last_date := by
  constructor
  · exact ((out_of_stock_characterization 432000000 [recB]).1 "A").2 ⟨by decide, by decide⟩
  · exact ((out_of_stock_characterization 432000000 [recB]).2.1
      (mkOutOfStockRow 432000000 ("A", [recB])) (by decide)).2.2.1

theorem pm_mem (l : List InventoryRecord) (hl : l ≠ []) (row : ProductMovementRow) :
    row ∈ (generateWeeklyReport l).product_movements ↔
      ∃ g ∈ groupBy (fun r : InventoryRecord => r.item_name) (List.insertionSort dateAsc l),
        mkProductMovementRow g = row ∧ 0 < weeklyActivityOf row := by
  have hpm : (generateWeeklyReport l).product_movements
      = List.insertionSort weeklyActivityDesc
          (((groupBy (fun r : InventoryRecord => r.item_name)
              (List.insertionSort dateAsc l)).map mkProductMovementRow).filter
            (fun row => decide (0 < weeklyActivityOf row))) := by
    unfold generateWeeklyReport
    rw [if_neg hl]
  rw [hpm, mem_sort_filter_map]
  constructor
  · rintro ⟨⟨g, hg, hrowg⟩, hact⟩
    exact ⟨g, hg, hrowg, by simpa using hact⟩
  · rintro ⟨g, hg, hrowg, hact⟩
    exact ⟨⟨g, hg, hrowg⟩, by simpa using hact⟩

theorem pm_activity_sum (l : List InventoryRecord) (g : String × List InventoryRecord)
    (hg : g ∈ groupBy (fun r : InventoryRecord => r.item_name)
      (List.insertionSort dateAsc l)) :
    weeklyActivityOf (mkProductMovementRow g)
      = ((l.filter (fun a => decide (a.item_name = g.1))).map
          (fun r => r.new_stock + r.issued_production + r.returns
            + r.rebagging + r.damaged)).sum := by
  obtain ⟨_, hsnd⟩ := (mem_groupBy _ _ _).1 hg
  have h5 : weeklyActivityOf (mkProductMovementRow g)
      = (g.2.map (fun r => r.new_stock + r.issued_production + r.returns
          + r.rebagging + r.damaged)).sum := five_sum_eq g.2
  rw [h5, hsnd]
  exact List.Perm.sum_eq (((List.perm_insertionSort dateAsc l).filter _).map _)

/-- C4: each product-movement row's activity_level is high iff its total
movement activity exceeds 100 and medium iff it exceeds 50 without
exceeding 100, where the total activity is the sum of the movement
fields (new_stock, issued_production, returns, rebagging, damaged) over
the product's records in range; products with zero total activity are
excluded from the list. -/
theorem weekly_activity_levels (l : List InventoryRecord) :
    (∀ row ∈ (generateWeeklyReport l).product_movements,
      weeklyActivityOf row
        = ((l.filter (fun a => decide (a.item_name = row.item_name))).map
            (fun r => r.new_stock + r.issued_production + r.returns
              + r.rebagging + r.damaged)).sum ∧
      (row.activity_level = "high" ↔ 100 < weeklyActivityOf row) ∧
      (row.activity_level = "medium"
        ↔ (50 < weeklyActivityOf row ∧ weeklyActivityOf row ≤ 100)) ∧
      (row.activity_level = "low" ↔ weeklyActivityOf row ≤ 50) ∧
      0 < weeklyActivityOf row) ∧
    (∀ p : String,
      ((l.filter (fun a => decide (a.item_name = p))).map
          (fun r => r.new_stock + r.issued_production + r.returns
            + r.rebagging + r.damaged)).sum = 0 →
      ∀ row ∈ (generateWeeklyReport l).product_movements, row.item_name ≠ p) := by
  by_cases hl : l = []
  · subst hl
    constructor
    · intro row hrow
      exact absurd hrow (List.not_mem_nil row)
    · intro p _ row hrow
      exact absurd hrow (List.not_mem_nil row)
  · constructor
    · intro row hrow
      obtain ⟨g, hg, hrowg, hact⟩ := (pm_mem l hl row).1 hrow
      subst hrowg
      have hsum := pm_activity_sum l g hg
      have hlevel : (mkProductMovementRow g).activity_level
          = (if 100 < weeklyActivityOf (mkProductMovementRow g) then "high"
             else if 50 < weeklyActivityOf (mkProductMovementRow g) then "medium"
             else "low") := rfl
      have htriple : ((mkProductMovementRow g).activity_level = "high"
            ↔ 100 < weeklyActivityOf (mkProductMovementRow g)) ∧
          ((mkProductMovementRow g).activity_level = "medium"
            ↔ (50 < weeklyActivityOf (mkProductMovementRow g)
                ∧ weeklyActivityOf (mkProductMovementRow g) ≤ 100)) ∧
          ((mkProductMovementRow g).activity_level = "low"
            ↔ weeklyActivityOf (mkProductMovementRow g) ≤ 50) := by
        rw [hlevel]
        split_ifs with h1 h2
        · exact ⟨iff_of_true rfl h1, iff_of_false (by decide) (by omega),
            iff_of_false (by decide) (by omega)⟩
        · exact ⟨iff_of_false (by decide) h1, iff_of_true rfl (by omega),
            iff_of_false (by decide) (by omega)⟩
        · exact ⟨iff_of_false (by decide) h1, iff_of_false (by decide) (by omega),
            iff_of_true rfl (by omega)⟩
      exact ⟨hsum, htriple.1, htriple.2.1, htriple.2.2, hact⟩
    · intro p hp row hrow
      obtain ⟨g, hg, hrowg, hact⟩ := (pm_mem l hl row).1 hrow
      subst hrowg
      intro hname
      have hname2 : g.1 = p := hname
      subst hname2
      have hsum := pm_activity_sum l g hg
      rw [hsum] at hact
      omega

/-- Witness for C4 at a concrete one-record list with activity 8. -/
theorem weekly_activity_levels_witness :
    weeklyActivityOf (mkProductMovementRow ("A", [recA]))
        = (([recA].filter (fun a =>
            decide (a.item_name = (mkProductMovementRow ("A", [recA])).item_name))).map
            (fun r => r.new_stock + r.issued_production + r.returns
              + r.rebagging + r.damaged)).sum ∧
    ((mkProductMovementRow ("A", [recA])).activity_level = "high"
        ↔ 100 < weeklyActivityOf (mkProductMovementRow ("A", [recA]))) ∧
    ((mkProductMovementRow ("A", [recA])).activity_level = "medium"
        ↔ (50 < weeklyActivityOf (mkProductMovementRow ("A", [recA]))
            ∧ weeklyActivityOf (mkProductMovementRow ("A", [recA])) ≤ 100)) ∧
    ((mkProductMovementRow ("A", [recA])).activity_level = "low"
        ↔ weeklyActivityOf (mkProductMovementRow ("A", [recA])) ≤ 50) ∧
    0 < weeklyActivityOf (mkProductMovementRow ("A", [recA])) :=
  (weekly_activity_levels [recA]).1 (mkProductMovementRow ("A", [recA])) (List.Mem.head _)

theorem out_map_scrub (t1 t2 : Int) (l : List InventoryRecord) :
    (generateOutOfStockReport t1 l).map scrubOutRow
      = (generateOutOfStockReport t2 l).map scrubOutRow := by
  unfold generateOutOfStockReport
  rw [List.filter_map, List.filter_map]
  have hpred : ((fun row : OutOfStockRow => decide (row.last_stock = 0))
        ∘ mkOutOfStockRow t1)
      = ((fun row : OutOfStockRow => decide (row.last_stock = 0))
          ∘ mkOutOfStockRow t2) := rfl
  rw [hpred]
  have hcomm : ∀ t : Int,
      List.insertionSort daysDesc
        ((((groupBy (fun r : InventoryRecord => r.item_name) l).filter
            ((fun row : OutOfStockRow => decide (row.last_stock = 0))
              ∘ mkOutOfStockRow t2)).map (mkOutOfStockRow t)))
        = (List.insertionSort groupLatestAsc
            ((groupBy (fun r : InventoryRecord => r.item_name) l).filter
              ((fun row : OutOfStockRow => decide (row.last_stock = 0))
                ∘ mkOutOfStockRow t2))).map (mkOutOfStockRow t) := by
    intro t
    refine (List.map_insertionSort groupLatestAsc daysDesc (mkOutOfStockRow t) _ ?_).symm
    intro a _ b _
    show (latestOf a.2).date ≤ (latestOf b.2).date
      ↔ daysSince t (latestOf b.2).date ≤ daysSince t (latestOf a.2).date
    rw [daysSince_eq, daysSince_eq]
    omega
  rw [hcomm t1, hcomm t2, List.map_map, List.map_map]
  have hscrub : scrubOutRow ∘ mkOutOfStockRow t1 = scrubOutRow ∘ mkOutOfStockRow t2 := rfl
  rw [hscrub]

/-- C3 as amended: the aggregator is a pure function of (records, date
range, current clock instant); with the clock-derived days_since_stock
fields erased, the bundle is determined by the records and the date
range alone - the clock affects nothing but days_since_stock in the
out-of-stock view. -/
theorem aggregator_clock_scrubbed (records : List InventoryRecord) (s e : Nat)
    (t1 t2 : Int) :
    scrubReports (generateReports records s e t1)
      = scrubReports (generateReports records s e t2) := by
  unfold generateReports scrubReports
  congr 1
  exact out_map_scrub t1 t2 _

/-- Counterexample to C3: on the same records and date range, two runs
at different clock instants produce different bundles - the out-of-stock
days_since_stock fields change with the clock. -/
theorem aggregator_clock_dependent :
    (generateReports [recB] 0 10 432000000).outOfStockProducts.map
        (fun row => row.days_since_stock) = [3] ∧
    (generateReports [recB] 0 10 0).outOfStockProducts.map
        (fun row => row.days_since_stock) = [-2] ∧
    generateReports [recB] 0 10 432000000 ≠ generateReports [recB] 0 10 0 := by
  refine ⟨by decide, by decide, ?_⟩
  intro h
  have h2 := congrArg (fun rd : ReportData =>
    rd.outOfStockProducts.map (fun row => row.days_since_stock)) h
  simp only at h2
  rw [show (generateReports [recB] 0 10 432000000).outOfStockProducts.map
      (fun row => row.days_since_stock) = [3] from by decide,
    show (generateReports [recB] 0 10 0).outOfStockProducts.map
      (fun row => row.days_since_stock) = [-2] from by decide] at h2
  exact absurd h2 (by decide)
